import Mathlib

/-!
Verification of the rg3d repository fragment: the engine plugin contract
(src/src/plugin/mod.rs) and the editor physics menu
(src/editor/src/menu/physics.rs).

Shallow embedding conventions:
  * Rust trait `Plugin` becomes a Lean structure of method implementations
    over a state type; Rust default method bodies (which are empty) become
    Lean structure-field defaults that return their inputs unchanged.
  * `std::any::Any` downcasting is modelled by a `Nat`-tagged dependent pair
    (`DynPlugin`): a tag plays the role of `TypeId`, and downcast succeeds
    exactly when tags agree, mirroring `downcast_ref`/`downcast_mut`.
  * Opaque engine resources (scene container, resource manager, renderer,
    user interface, window, serialization context, OS events) are modelled
    as `Nat` values: the code under verification never inspects them.
  * `f32` time deltas are modelled as exact rationals `ℚ`.
  * A panicking path (an `unwrap` of a failed channel send) is modelled by
    `Option`: `none` means the call aborts.
-/

namespace Rg3d

/-! ## Plugin contract data model (src/src/plugin/mod.rs) -/

/-- A 128-bit UUID value, as in `fyrox_core::uuid::Uuid`. -/
abbrev Uuid := Fin (2 ^ 128)

/-- Builds a `Uuid` from a raw 128-bit value. -/
def mkUuid (n : Nat) (h : n < 2 ^ 128) : Uuid := ⟨n, h⟩

/-- Opaque model of the engine's `SerializationContext` (type registry). -/
abbrev SerializationContext := Nat

/-- Opaque model of a pool `Handle` (both `Handle<UiNode>` and `Handle<Scene>`). -/
abbrev Handle := Nat

/-- Opaque model of an OS `Event<()>`. -/
abbrev OsEvent := Nat

/-- Model of `winit`'s `ControlFlow`, the lifecycle directive a plugin can set
from `update`/`on_os_event`. -/
inductive ControlFlow where
  | poll
  | wait
  | waitUntil (instant : Nat)
  | exitLoop
deriving DecidableEq

/-- Model of `PluginRegistrationContext`: the environment for the registration stage. -/
structure PluginRegistrationContext where
  serialization_context : SerializationContext
deriving DecidableEq

/-- Model of `PluginContext`: the environment passed to every post-registration
lifecycle call.  Mutably borrowed engine resources become fields the plugin
may replace; `dt` is the elapsed time in seconds since the previous call. -/
structure PluginContext where
  scenes : Nat
  resource_manager : Nat
  user_interface : Nat
  renderer : Nat
  dt : ℚ
  serialization_context : SerializationContext
  window : Nat
deriving DecidableEq

/-- The `Plugin` trait: one value of this structure is one implementation of
the trait for a plugin type with state `σ`.  Each method takes the state and
the borrowed environment and returns the (possibly mutated) state and
environment.  Every default value below is the translation of the
corresponding empty default method body in the source; `id` has no default,
mirroring that `fn id(&self) -> Uuid;` is the only required method. -/
structure Plugin (σ : Type) where
  on_register : σ → PluginRegistrationContext → σ × PluginRegistrationContext :=
    fun s context => (s, context)
  on_init : σ → Handle → PluginContext → σ × PluginContext :=
    fun s _override_scene context => (s, context)
  on_deinit : σ → PluginContext → σ × PluginContext :=
    fun s context => (s, context)
  update : σ → PluginContext → ControlFlow → σ × PluginContext × ControlFlow :=
    fun s context control_flow => (s, context, control_flow)
  id : σ → Uuid
  on_os_event : σ → OsEvent → PluginContext → ControlFlow → σ × PluginContext × ControlFlow :=
    fun s _event context control_flow => (s, context, control_flow)

/-- A type-erased plugin instance `Box<dyn Plugin>` / `&dyn Plugin`.
`F` interprets each `TypeId` tag as the state type of the concrete plugin
type carrying that tag; Rust guarantees distinct concrete types have
distinct `TypeId`s, so tag equality is concrete-type equality. -/
structure DynPlugin (F : Nat → Type) where
  tag : Nat
  state : F tag

/-- The blanket impl's `as_any`: the erased value itself (`self`). -/
def DynPlugin.as_any {F : Nat → Type} (p : DynPlugin F) : DynPlugin F := p

/-- The blanket impl's `as_any_mut`: the erased value itself (`self`). -/
def DynPlugin.as_any_mut {F : Nat → Type} (p : DynPlugin F) : DynPlugin F := p

/-- Model of `Any::downcast_ref::<T>`: succeeds exactly when the value's dynamic
`TypeId` equals `T`'s. -/
def downcast_ref {F : Nat → Type} (T : Nat) (a : DynPlugin F) : Option (F T) :=
  if h : a.tag = T then some (h ▸ a.state) else none

/-- Model of `Any::downcast_mut::<T>`: same success condition as `downcast_ref`. -/
def downcast_mut {F : Nat → Type} (T : Nat) (a : DynPlugin F) : Option (F T) :=
  if h : a.tag = T then some (h ▸ a.state) else none

/-- Model of `<dyn Plugin>::cast::<T>`: `self.as_any().downcast_ref::<T>()`. -/
def DynPlugin.cast {F : Nat → Type} (p : DynPlugin F) (T : Nat) : Option (F T) :=
  downcast_ref T p.as_any

/-- Model of `<dyn Plugin>::cast_mut::<T>`: `self.as_any_mut().downcast_mut::<T>()`. -/
def DynPlugin.cast_mut {F : Nat → Type} (p : DynPlugin F) (T : Nat) : Option (F T) :=
  downcast_mut T p.as_any_mut

/-- The blanket impl's `default_boxed`: `Box::new(T::default())`, where `T`
is the concrete type of `self`.  `deflt` supplies each type's
`Default::default()` value (the blanket impl requires `T: Default`). -/
def DynPlugin.default_boxed {F : Nat → Type} (p : DynPlugin F)
    (deflt : (t : Nat) → F t) : DynPlugin F :=
  ⟨p.tag, deflt p.tag⟩

/-! ## Physics menu data model (src/editor/src/menu/physics.rs) -/

/-- Model of `fyrox_ui::menu::MenuItemMessage` (variants `Open`, `Close`,
`Click`); only `Click` is inspected by the menu. -/
inductive MenuItemMessage where
  | openItem
  | closeItem
  | click
deriving DecidableEq

/-- Model of a `UiMessage`: its destination widget handle and the result of
`message.data::<MenuItemMessage>()` (`none` models a payload of any other
message type). -/
structure UiMessage where
  destination : Handle
  data : Option MenuItemMessage
deriving DecidableEq

/-- Model of the joint parameter variants chosen by the menu; the payload of
each variant is `Default::default()` in the source and is left opaque. -/
inductive JointParams where
  | revoluteJoint
  | ballJoint
  | prismaticJoint
  | fixedJoint
deriving DecidableEq

/-- Model of the collider shape chosen by the menu (`Cuboid(Default::default())`). -/
inductive ColliderShape where
  | cuboid
deriving DecidableEq

/-- Model of the scene `Node` values the menu builds: the builder chains in the
source fix only the node kind, its base name, and (for joints/colliders) the
variant; everything else is the builders' defaults, left opaque. -/
inductive Node where
  | rigidBody (name : String)
  | joint (name : String) (params : JointParams)
  | collider (name : String) (shape : ColliderShape)
deriving DecidableEq

/-- Model of `AddNodeCommand::new(node, parent)`. -/
structure AddNodeCommand where
  node : Node
  parent : Handle
deriving DecidableEq

/-- The editor `Message`s the menu emits: `Message::do_scene_command(cmd)`. -/
inductive Message where
  | do_scene_command (cmd : AddNodeCommand)
deriving DecidableEq

/-- The `PhysicsMenu` widget: the root menu handle and the six item handles. -/
structure PhysicsMenu where
  menu : Handle
  create_rigid_body : Handle
  create_revolute_joint : Handle
  create_ball_joint : Handle
  create_prismatic_joint : Handle
  create_fixed_joint : Handle
  create_collider : Handle
deriving DecidableEq

/-- Model of `sender.send(m).unwrap()`: `send` fails exactly when the receiving end of
the channel has been dropped, and `unwrap` turns that failure into a panic
(`none`); otherwise the sent message is recorded. -/
def send_unwrap (receiver_alive : Bool) (m : Message) : Option Message :=
  if receiver_alive then some m else none

/-- Model of `PhysicsMenu::handle_ui_message`, translated branch for branch from the
source: on a `MenuItemMessage::Click` the destination is compared against the
six item handles in source order and the first match sends its `AddNodeCommand`.
Returns `none` when a send panics, otherwise the (unchanged) menu and the
list of messages sent over the channel. -/
def handle_ui_message (self : PhysicsMenu) (message : UiMessage)
    (receiver_alive : Bool) (parent : Handle) :
    Option (PhysicsMenu × List Message) :=
  match message.data with
  | some MenuItemMessage.click =>
    if message.destination = self.create_rigid_body then
      (send_unwrap receiver_alive (Message.do_scene_command
        ⟨Node.rigidBody "Rigid Body", parent⟩)).map (fun m => (self, [m]))
    else if message.destination = self.create_revolute_joint then
      (send_unwrap receiver_alive (Message.do_scene_command
        ⟨Node.joint "Revolute Joint" JointParams.revoluteJoint, parent⟩)).map
        (fun m => (self, [m]))
    else if message.destination = self.create_ball_joint then
      (send_unwrap receiver_alive (Message.do_scene_command
        ⟨Node.joint "Ball Joint" JointParams.ballJoint, parent⟩)).map
        (fun m => (self, [m]))
    else if message.destination = self.create_prismatic_joint then
      (send_unwrap receiver_alive (Message.do_scene_command
        ⟨Node.joint "Prismatic Joint" JointParams.prismaticJoint, parent⟩)).map
        (fun m => (self, [m]))
    else if message.destination = self.create_fixed_joint then
      (send_unwrap receiver_alive (Message.do_scene_command
        ⟨Node.joint "Fixed Joint" JointParams.fixedJoint, parent⟩)).map
        (fun m => (self, [m]))
    else if message.destination = self.create_collider then
      (send_unwrap receiver_alive (Message.do_scene_command
        ⟨Node.collider "Collider" ColliderShape.cuboid, parent⟩)).map
        (fun m => (self, [m]))
    else some (self, [])
  | _ => some (self, [])

/-- The six clickable item handles, in the order the source tests them. -/
def item_handle (self : PhysicsMenu) : Fin 6 → Handle
  | 0 => self.create_rigid_body
  | 1 => self.create_revolute_joint
  | 2 => self.create_ball_joint
  | 3 => self.create_prismatic_joint
  | 4 => self.create_fixed_joint
  | 5 => self.create_collider

/-- The command message each item sends, in the same order as `item_handle`. -/
def item_command : Fin 6 → Handle → Message
  | 0, parent => Message.do_scene_command ⟨Node.rigidBody "Rigid Body", parent⟩
  | 1, parent => Message.do_scene_command
      ⟨Node.joint "Revolute Joint" JointParams.revoluteJoint, parent⟩
  | 2, parent => Message.do_scene_command
      ⟨Node.joint "Ball Joint" JointParams.ballJoint, parent⟩
  | 3, parent => Message.do_scene_command
      ⟨Node.joint "Prismatic Joint" JointParams.prismaticJoint, parent⟩
  | 4, parent => Message.do_scene_command
      ⟨Node.joint "Fixed Joint" JointParams.fixedJoint, parent⟩
  | 5, parent => Message.do_scene_command
      ⟨Node.collider "Collider" ColliderShape.cuboid, parent⟩

/-! ## Host-side lifecycle driver (modelled from the spec) -/

/-- Modelled from the spec: the engine's host loop that drives the plugin
lifecycle is not part of src/ (only the `Plugin` trait it calls is).  The
spec fixes the per-instance state machine
`Unregistered → Registered → Active ⇄ (update/on_os_event loop) → Inactive`,
with `on_init` also firing on reactivation after `on_deinit`. -/
inductive PluginState where
  | unregistered
  | registered
  | active
  | inactive
deriving DecidableEq

/-- The lifecycle entry points the host can invoke on a plugin instance. -/
inductive HostCall where
  | onRegister
  | onInit
  | update
  | onOsEvent
  | onDeinit
deriving DecidableEq

/-- Modelled from the spec: the edges of the per-instance lifecycle state
machine; `none` means the host never makes that call in that state. -/
def lifecycleStep : PluginState → HostCall → Option PluginState
  | PluginState.unregistered, HostCall.onRegister => some PluginState.registered
  | PluginState.registered, HostCall.onInit => some PluginState.active
  | PluginState.inactive, HostCall.onInit => some PluginState.active
  | PluginState.active, HostCall.update => some PluginState.active
  | PluginState.active, HostCall.onOsEvent => some PluginState.active
  | PluginState.active, HostCall.onDeinit => some PluginState.inactive
  | _, _ => none

/-- Runs a sequence of lifecycle calls from a state; `none` as soon as a call
is not permitted by the state machine. -/
def runLifecycle : PluginState → List HostCall → Option PluginState
  | s, [] => some s
  | s, c :: cs =>
    match lifecycleStep s c with
    | some s' => runLifecycle s' cs
    | none => none

/-- A host-driven call sequence on one plugin instance, starting before
registration, in which every call respects the lifecycle state machine. -/
def ValidTrace (tr : List HostCall) : Prop :=
  (runLifecycle PluginState.unregistered tr).isSome

instance (tr : List HostCall) : Decidable (ValidTrace tr) := by
  unfold ValidTrace
  infer_instance

/-- Modelled from the spec: the host's fixed-cadence tick loop.  Given the
context template, the clock reading at each tick and the clock reading of
the previous call, it builds the `PluginContext` passed to each `update`
call, with `dt` the elapsed time since the previous call. -/
def tickContexts (base : PluginContext) : List ℚ → ℚ → List PluginContext
  | [], _ => []
  | t :: ts, last => { base with dt := t - last } :: tickContexts base ts t

/-! ## Host-observable effects of single calls -/

/-- The host-owned environment a single lifecycle call can reach: the runtime
context, the registration context and the control-flow directive. -/
structure HostObs where
  context : PluginContext
  registration_context : PluginRegistrationContext
  control_flow : ControlFlow
deriving DecidableEq

/-- One `on_register` call as the host sees it: the method signature hands the
plugin only the registration context. -/
def call_on_register {σ : Type} (m : Plugin σ) (s : σ) (h : HostObs) : σ × HostObs :=
  let r := m.on_register s h.registration_context
  (r.1, { h with registration_context := r.2 })

/-- One `on_init` call as the host sees it: the plugin receives the override
scene handle and the runtime context. -/
def call_on_init {σ : Type} (m : Plugin σ) (s : σ) (override_scene : Handle)
    (h : HostObs) : σ × HostObs :=
  let r := m.on_init s override_scene h.context
  (r.1, { h with context := r.2 })

/-- One `on_deinit` call as the host sees it. -/
def call_on_deinit {σ : Type} (m : Plugin σ) (s : σ) (h : HostObs) : σ × HostObs :=
  let r := m.on_deinit s h.context
  (r.1, { h with context := r.2 })

/-- One `update` call as the host sees it: the plugin receives the runtime
context and the mutable control-flow directive. -/
def call_update {σ : Type} (m : Plugin σ) (s : σ) (h : HostObs) : σ × HostObs :=
  let r := m.update s h.context h.control_flow
  (r.1, { h with context := r.2.1, control_flow := r.2.2 })

/-- One `on_os_event` call as the host sees it. -/
def call_on_os_event {σ : Type} (m : Plugin σ) (s : σ) (event : OsEvent)
    (h : HostObs) : σ × HostObs :=
  let r := m.on_os_event s event h.context h.control_flow
  (r.1, { h with context := r.2.1, control_flow := r.2.2 })

/-! ## Concrete plugin implementations used as witnesses and counterexamples -/

/-- The constant UUID `b9302812-81a7-48a5-89d2-921774d94943` returned by the
doc-example plugin in src/src/plugin/mod.rs. -/
def myPluginUuid : Uuid := mkUuid 0xb930281281a748a589d2921774d94943 (by norm_num)

/-- The doc-example `MyPlugin {}` from src/src/plugin/mod.rs: unit state,
every lifecycle method left at its default, `id` returning a constant. -/
def myPlugin : Plugin Unit := { id := fun _ => myPluginUuid }

/-- A plugin implementation that is legal for the trait (the trait places no
constraint on the body of `id`) but whose `id` depends on the instance's
state. -/
def roguePlugin : Plugin Bool :=
  { id := fun b => if b then mkUuid 1 (by norm_num) else mkUuid 2 (by norm_num) }

/-- A trait-legal implementation returning the constant id `7`. -/
def duplicateA : Plugin Unit := { id := fun _ => mkUuid 7 (by norm_num) }

/-- A second trait-legal implementation, of a different plugin type (different
state type), returning the same constant id as `duplicateA`. -/
def duplicateB : Plugin (Option Unit) := { id := fun _ => mkUuid 7 (by norm_num) }

/-! ## Claims about the plugin contract -/

/-- C1: for every plugin instance covered by the blanket `BasePlugin` impl,
`cast::<T>` and `cast_mut::<T>` return `Some` exactly when the requested
concrete type `T` equals the instance's dynamic type, and `None` for every
mismatched type; both are total functions of the embedding, so no call
panics. -/
theorem cast_some_iff_type_match {F : Nat → Type} (p : DynPlugin F) (T : Nat) :
    ((p.cast T).isSome ↔ p.tag = T) ∧ ((p.cast_mut T).isSome ↔ p.tag = T) := by
  constructor <;>
  · simp only [DynPlugin.cast, DynPlugin.cast_mut, DynPlugin.as_any,
      DynPlugin.as_any_mut, downcast_ref, downcast_mut]
    split <;> simp_all

/-- C2: for every plugin instance `p` of a type with `Default`,
`p.default_boxed()` downcasts to `p`'s concrete type successfully, the value
obtained is exactly `T::default()`, and the result does not depend on `p`'s
current state: two instances of the same type yield equal boxed defaults. -/
theorem default_boxed_is_default {F : Nat → Type} (deflt : (t : Nat) → F t)
    (p q : DynPlugin F) (h : p.tag = q.tag) :
    (p.default_boxed deflt).cast p.tag = some (deflt p.tag) ∧
    p.default_boxed deflt = q.default_boxed deflt := by
  constructor
  · simp [DynPlugin.cast, DynPlugin.as_any, downcast_ref, DynPlugin.default_boxed]
  · cases p
    cases q
    dsimp only at h
    subst h
    rfl

/-- Witness for C2 at a concrete instantiation: type tag 5 with `Nat` state,
default value 0, instances in states 42 and 7. -/
theorem default_boxed_is_default_witness :
    ((DynPlugin.mk 5 42 : DynPlugin (fun _ => Nat)).default_boxed
      (fun _ => 0)).cast 5 = some 0 ∧
    (DynPlugin.mk 5 42 : DynPlugin (fun _ => Nat)).default_boxed (fun _ => 0) =
      (DynPlugin.mk 5 7 : DynPlugin (fun _ => Nat)).default_boxed (fun _ => 0) :=
  default_boxed_is_default (fun _ => 0) ⟨5, 42⟩ ⟨5, 7⟩ rfl

/-- C3 counterexample: the trait does not enforce the id stability the claim
asserts of every plugin type.  `roguePlugin` is a legal implementation whose
two independently constructed instances (`true` and `false`) report different
ids, and `duplicateA`/`duplicateB` are legal implementations of two distinct
plugin types reporting the same id. -/
theorem id_claim_counterexample :
    roguePlugin.id true ≠ roguePlugin.id false ∧
    duplicateA.id () = duplicateB.id none := by
  constructor
  · decide
  · rfl

/-- C3 (amended): `id()` returns a 128-bit `Uuid`; for every plugin whose
`id` implementation returns a per-type constant — which is what the trait's
documentation demands of implementers but the code cannot enforce — repeated
calls and arbitrary instances of the type all report that same identifier.
Distinctness of ids across distinct plugin types is likewise a documented
covenant on implementers, not a consequence of the code. -/
theorem id_stable_of_constant {σ : Type} (m : Plugin σ) (u : Uuid)
    (h : ∀ s, m.id s = u) (s s' : σ) :
    m.id s = m.id s' ∧ (m.id s).val < 2 ^ 128 :=
  ⟨(h s).trans (h s').symm, (m.id s).isLt⟩

/-- Witness for the amended C3: the doc-example plugin of the source, whose
`id` returns the constant `b9302812-81a7-48a5-89d2-921774d94943`. -/
theorem id_stable_of_constant_witness :
    myPlugin.id () = myPlugin.id () ∧ (myPlugin.id ()).val < 2 ^ 128 :=
  id_stable_of_constant myPlugin myPluginUuid (fun _ => rfl) () ()

/-- C5: the default (un-overridden) implementations of `on_register`,
`on_init`, `on_deinit`, `update` and `on_os_event` are no-ops — each returns
its state, its context and (where passed) its control-flow directive
unchanged — and `id`, the one method without a default, is exactly the
supplied implementation. -/
theorem default_lifecycle_methods_are_noops {σ : Type} (idf : σ → Uuid) (s : σ)
    (rc : PluginRegistrationContext) (ov : Handle) (ctx : PluginContext)
    (e : OsEvent) (cf : ControlFlow) :
    ({ id := idf } : Plugin σ).on_register s rc = (s, rc) ∧
    ({ id := idf } : Plugin σ).on_init s ov ctx = (s, ctx) ∧
    ({ id := idf } : Plugin σ).on_deinit s ctx = (s, ctx) ∧
    ({ id := idf } : Plugin σ).update s ctx cf = (s, ctx, cf) ∧
    ({ id := idf } : Plugin σ).on_os_event s e ctx cf = (s, ctx, cf) ∧
    ({ id := idf } : Plugin σ).id s = idf s :=
  ⟨rfl, rfl, rfl, rfl, rfl, rfl⟩

/-- C6: every lifecycle call is a total function of the embedding (no
`Option`/`Except` layer: no method returns an error), `id` returns a plain
128-bit `Uuid`, and for every implementation, `on_register`, `on_init` and
`on_deinit` leave the host's control-flow directive untouched — their
signatures never reach it — while after `update`/`on_os_event` the host's
directive is exactly the one the plugin set, the sole host-directed
signal. -/
theorem lifecycle_calls_signal_only_via_control_flow {σ : Type}
    (m : Plugin σ) (s : σ) (ov : Handle) (e : OsEvent) (h : HostObs) :
    (call_on_register m s h).2.control_flow = h.control_flow ∧
    (call_on_init m s ov h).2.control_flow = h.control_flow ∧
    (call_on_deinit m s h).2.control_flow = h.control_flow ∧
    (call_update m s h).2.control_flow = (m.update s h.context h.control_flow).2.2 ∧
    (call_on_os_event m s e h).2.control_flow =
      (m.on_os_event s e h.context h.control_flow).2.2 ∧
    (m.id s).val < 2 ^ 128 :=
  ⟨rfl, rfl, rfl, rfl, rfl, (m.id s).isLt⟩

/-! ## Claims about the physics menu -/

/-- Helper: with a live receiver, `handle_ui_message` is the pure first-match
dispatch over the six item handles in source order. -/
theorem handle_ui_message_true_eq (self : PhysicsMenu) (dest : Handle)
    (data : Option MenuItemMessage) (parent : Handle) :
    handle_ui_message self ⟨dest, data⟩ true parent =
      some (self,
        if data = some MenuItemMessage.click then
          if dest = self.create_rigid_body then [item_command 0 parent]
          else if dest = self.create_revolute_joint then [item_command 1 parent]
          else if dest = self.create_ball_joint then [item_command 2 parent]
          else if dest = self.create_prismatic_joint then [item_command 3 parent]
          else if dest = self.create_fixed_joint then [item_command 4 parent]
          else if dest = self.create_collider then [item_command 5 parent]
          else []
        else []) := by
  rcases data with _ | mi
  · rfl
  · cases mi
    · simp [handle_ui_message]
    · simp [handle_ui_message]
    · simp only [handle_ui_message, send_unwrap, if_true, Option.map_some]
      split_ifs <;> simp [item_command]

/-- Helper: the six menu commands are pairwise distinct across items. -/
theorem item_command_injective (i j : Fin 6) (parent : Handle)
    (h : item_command i parent = item_command j parent) : i = j := by
  fin_cases i <;> fin_cases j <;> simp_all [item_command]

/-- A concrete physics menu used by witnesses: root handle 0, item handles
1 through 6. -/
def testMenu : PhysicsMenu := ⟨0, 1, 2, 3, 4, 5, 6⟩

/-- C4: with the six item handles pairwise distinct (as built by the UI) and
a live receiver, `handle_ui_message` sends exactly the `do_scene_command`
message carrying the item's `AddNodeCommand` parented to `parent` when the
message is a `MenuItemMessage::Click` destined to that item's handle, and
sends nothing for any other message or destination. -/
theorem handle_ui_message_click_dispatch (self : PhysicsMenu)
    (message : UiMessage) (parent : Handle)
    (hdist : ∀ i j : Fin 6, i ≠ j → item_handle self i ≠ item_handle self j) :
    (∀ i : Fin 6,
      handle_ui_message self message true parent =
          some (self, [item_command i parent]) ↔
        (message.data = some MenuItemMessage.click ∧
          message.destination = item_handle self i)) ∧
    ((message.data ≠ some MenuItemMessage.click ∨
        ∀ i : Fin 6, message.destination ≠ item_handle self i) →
      handle_ui_message self message true parent = some (self, [])) := by
  rcases message with ⟨dest, data⟩
  simp only [handle_ui_message_true_eq]
  constructor
  · intro i
    constructor
    · intro hsend
      have hL : (if data = some MenuItemMessage.click then
          if dest = self.create_rigid_body then [item_command 0 parent]
          else if dest = self.create_revolute_joint then [item_command 1 parent]
          else if dest = self.create_ball_joint then [item_command 2 parent]
          else if dest = self.create_prismatic_joint then [item_command 3 parent]
          else if dest = self.create_fixed_joint then [item_command 4 parent]
          else if dest = self.create_collider then [item_command 5 parent]
          else []
        else []) = [item_command i parent] :=
        congrArg Prod.snd (Option.some.inj hsend)
      split_ifs at hL with hc h0 h1 h2 h3 h4 h5 <;>
        simp only [List.cons.injEq, and_true, List.nil_eq] at hL
      · obtain rfl : (0 : Fin 6) = i := item_command_injective _ _ _ hL
        exact ⟨hc, h0⟩
      · obtain rfl : (1 : Fin 6) = i := item_command_injective _ _ _ hL
        exact ⟨hc, h1⟩
      · obtain rfl : (2 : Fin 6) = i := item_command_injective _ _ _ hL
        exact ⟨hc, h2⟩
      · obtain rfl : (3 : Fin 6) = i := item_command_injective _ _ _ hL
        exact ⟨hc, h3⟩
      · obtain rfl : (4 : Fin 6) = i := item_command_injective _ _ _ hL
        exact ⟨hc, h4⟩
      · obtain rfl : (5 : Fin 6) = i := item_command_injective _ _ _ hL
        exact ⟨hc, h5⟩
    · rintro ⟨hc, hdest⟩
      subst hc
      fin_cases i
      · simp only [item_handle] at hdest
        simp [hdest, item_command]
      · have n0 := hdist 1 0 (by decide)
        simp only [item_handle] at hdest n0
        simp [hdest, n0, item_command]
      · have n0 := hdist 2 0 (by decide)
        have n1 := hdist 2 1 (by decide)
        simp only [item_handle] at hdest n0 n1
        simp [hdest, n0, n1, item_command]
      · have n0 := hdist 3 0 (by decide)
        have n1 := hdist 3 1 (by decide)
        have n2 := hdist 3 2 (by decide)
        simp only [item_handle] at hdest n0 n1 n2
        simp [hdest, n0, n1, n2, item_command]
      · have n0 := hdist 4 0 (by decide)
        have n1 := hdist 4 1 (by decide)
        have n2 := hdist 4 2 (by decide)
        have n3 := hdist 4 3 (by decide)
        simp only [item_handle] at hdest n0 n1 n2 n3
        simp [hdest, n0, n1, n2, n3, item_command]
      · have n0 := hdist 5 0 (by decide)
        have n1 := hdist 5 1 (by decide)
        have n2 := hdist 5 2 (by decide)
        have n3 := hdist 5 3 (by decide)
        have n4 := hdist 5 4 (by decide)
        simp only [item_handle] at hdest n0 n1 n2 n3 n4
        simp [hdest, n0, n1, n2, n3, n4, item_command]
  · rintro (hnc | hall)
    · simp [hnc]
    · have n0 := hall 0
      have n1 := hall 1
      have n2 := hall 2
      have n3 := hall 3
      have n4 := hall 4
      have n5 := hall 5
      simp only [item_handle] at n0 n1 n2 n3 n4 n5
      simp [n0, n1, n2, n3, n4, n5]

/-- Witness for C4: the concrete menu with handles 0–6, a click on handle 3
(the ball-joint item), parent 99. -/
theorem handle_ui_message_click_dispatch_witness :
    (∀ i : Fin 6,
      handle_ui_message testMenu ⟨3, some MenuItemMessage.click⟩ true 99 =
          some (testMenu, [item_command i 99]) ↔
        (some MenuItemMessage.click = some MenuItemMessage.click ∧
          3 = item_handle testMenu i)) ∧
    ((some MenuItemMessage.click ≠ some MenuItemMessage.click ∨
        ∀ i : Fin 6, 3 ≠ item_handle testMenu i) →
      handle_ui_message testMenu ⟨3, some MenuItemMessage.click⟩ true 99 =
        some (testMenu, [])) :=
  handle_ui_message_click_dispatch testMenu ⟨3, some MenuItemMessage.click⟩ 99
    (by decide)

/-- C9: every send result is unwrapped, so `handle_ui_message` aborts
(`none`) exactly when it attempts a send — a click destined to one of the six
item handles — while the receiving end of the channel has been dropped; with
a live receiver no call aborts. -/
theorem handle_ui_message_unwrap_behavior (self : PhysicsMenu)
    (message : UiMessage) (parent : Handle) :
    (handle_ui_message self message true parent).isSome ∧
    ((message.data = some MenuItemMessage.click ∧
        ∃ i : Fin 6, message.destination = item_handle self i) →
      handle_ui_message self message false parent = none) := by
  rcases message with ⟨dest, data⟩
  constructor
  · rw [handle_ui_message_true_eq]
    rfl
  · rintro ⟨hc, i, hdest⟩
    subst hc
    simp only [handle_ui_message, send_unwrap, if_false, Option.map_none]
    fin_cases i <;> simp only [item_handle] at hdest <;>
      split_ifs <;> simp_all

/-- Witness for C9: the concrete menu, a click on item handle 1; the call
succeeds with a live receiver and aborts with a dropped one. -/
theorem handle_ui_message_unwrap_behavior_witness :
    (handle_ui_message testMenu ⟨1, some MenuItemMessage.click⟩ true 99).isSome ∧
    handle_ui_message testMenu ⟨1, some MenuItemMessage.click⟩ false 99 = none :=
  ⟨(handle_ui_message_unwrap_behavior testMenu ⟨1, some MenuItemMessage.click⟩ 99).1,
   (handle_ui_message_unwrap_behavior testMenu ⟨1, some MenuItemMessage.click⟩ 99).2
     ⟨rfl, 0, rfl⟩⟩

/-- C10: whenever `handle_ui_message` returns (does not abort), the menu —
all seven handle fields — is unchanged and at most one message was sent over
the channel. -/
theorem handle_ui_message_frame (self : PhysicsMenu) (message : UiMessage)
    (receiver_alive : Bool) (parent : Handle) (r : PhysicsMenu × List Message)
    (h : handle_ui_message self message receiver_alive parent = some r) :
    r.1 = self ∧ r.2.length ≤ 1 := by
  unfold handle_ui_message at h
  split at h
  · cases receiver_alive <;> split_ifs at h <;> simp_all [send_unwrap] <;>
      exact h ▸ ⟨rfl, by simp⟩
  · exact Option.some.inj h ▸ ⟨rfl, by simp⟩

/-- Witness for C10: the concrete menu, a click on item handle 2. -/
theorem handle_ui_message_frame_witness :
    (testMenu,
      [Message.do_scene_command
        ⟨Node.joint "Revolute Joint" JointParams.revoluteJoint, 99⟩]).1 = testMenu ∧
    (testMenu,
      [Message.do_scene_command
        ⟨Node.joint "Revolute Joint" JointParams.revoluteJoint, 99⟩]).2.length ≤ 1 :=
  handle_ui_message_frame testMenu ⟨2, some MenuItemMessage.click⟩ true 99 _ rfl

/-! ## Claims about the host-driven lifecycle ordering -/

/-- Helper: no lifecycle edge re-enters the `unregistered` state. -/
theorem lifecycleStep_ne_unregistered (s s' : PluginState) (c : HostCall)
    (h : lifecycleStep s c = some s') : s' ≠ PluginState.unregistered := by
  rintro rfl
  cases s <;> cases c <;> simp [lifecycleStep] at h

/-- Helper: running a concatenation of call lists runs them in sequence. -/
theorem runLifecycle_append (xs ys : List HostCall) (s : PluginState) :
    runLifecycle s (xs ++ ys) =
      (runLifecycle s xs).bind (fun s' => runLifecycle s' ys) := by
  induction xs generalizing s with
  | nil => rfl
  | cons c cs ih =>
    rcases hstep : lifecycleStep s c with _ | s'
    · simp [runLifecycle, hstep]
    · simp [runLifecycle, hstep, ih]

/-- Helper: a valid run that does not start in `unregistered` never performs
`on_register` (the only edge accepting it leaves `unregistered`). -/
theorem register_not_mem_of_started (tr : List HostCall) (s : PluginState)
    (hs : s ≠ PluginState.unregistered) (h : (runLifecycle s tr).isSome) :
    HostCall.onRegister ∉ tr := by
  induction tr generalizing s with
  | nil => simp
  | cons c cs ih =>
    rcases hstep : lifecycleStep s c with _ | s'
    · simp [runLifecycle, hstep] at h
    · have h' : (runLifecycle s' cs).isSome := by
        simpa [runLifecycle, hstep] using h
      simp only [List.mem_cons, not_or]
      refine ⟨?_, ih s' (lifecycleStep_ne_unregistered s s' c hstep) h'⟩
      rintro rfl
      cases s <;> simp_all [lifecycleStep]

/-- Helper: a valid run from `unregistered` that reaches any other state
performed `on_register`. -/
theorem register_mem_of_left_unregistered (xs : List HostCall) (s : PluginState)
    (h : runLifecycle PluginState.unregistered xs = some s)
    (hs : s ≠ PluginState.unregistered) : HostCall.onRegister ∈ xs := by
  cases xs with
  | nil =>
    simp only [runLifecycle, Option.some.injEq] at h
    exact absurd h.symm hs
  | cons c cs =>
    rcases hstep : lifecycleStep PluginState.unregistered c with _ | s'
    · simp [runLifecycle, hstep] at h
    · have hc : c = HostCall.onRegister := by
        cases c <;> simp_all [lifecycleStep]
      subst hc
      exact List.mem_cons_self _ _

/-- Helper: a valid run that reaches `active` from a state other than
`active` performed `on_init`. -/
theorem init_mem_of_reaches_active (xs : List HostCall) (s : PluginState)
    (hs : s ≠ PluginState.active)
    (h : runLifecycle s xs = some PluginState.active) : HostCall.onInit ∈ xs := by
  induction xs generalizing s with
  | nil =>
    simp only [runLifecycle, Option.some.injEq] at h
    exact absurd h hs
  | cons c cs ih =>
    rcases hstep : lifecycleStep s c with _ | s'
    · simp [runLifecycle, hstep] at h
    · by_cases hc : c = HostCall.onInit
      · subst hc
        exact List.mem_cons_self _ _
      · have h' : runLifecycle s' cs = some PluginState.active := by
          simpa [runLifecycle, hstep] using h
        have hs' : s' ≠ PluginState.active := by
          rintro rfl
          cases s <;> cases c <;> simp_all [lifecycleStep]
        exact List.mem_cons_of_mem _ (ih s' hs' h')

/-- Helper: splitting a valid trace at one call exposes the state in which
the host made that call. -/
theorem validTrace_split (xs ys : List HostCall) (c : HostCall)
    (h : ValidTrace (xs ++ c :: ys)) :
    ∃ s s', runLifecycle PluginState.unregistered xs = some s ∧
      lifecycleStep s c = some s' ∧ (runLifecycle s' ys).isSome := by
  unfold ValidTrace at h
  rw [runLifecycle_append] at h
  rcases hx : runLifecycle PluginState.unregistered xs with _ | s
  · simp [hx] at h
  · have h1 : (runLifecycle s (c :: ys)).isSome := by simpa [hx] using h
    rcases hstep : lifecycleStep s c with _ | s'
    · simp [runLifecycle, hstep] at h1
    · exact ⟨s, s', rfl, hstep, by simpa [runLifecycle, hstep] using h1⟩

/-- C7: in every host-driven call sequence respecting the lifecycle state
machine, `on_register` occurs at most once; every `on_init` is preceded by an
`on_register`; every `on_deinit` is preceded by an `on_init`; and no
`update`/`on_os_event` call follows an `on_deinit` without an intervening
`on_init`. -/
theorem lifecycle_ordering (tr : List HostCall) (h : ValidTrace tr) :
    tr.count HostCall.onRegister ≤ 1 ∧
    (∀ xs ys, tr = xs ++ HostCall.onInit :: ys → HostCall.onRegister ∈ xs) ∧
    (∀ xs ys, tr = xs ++ HostCall.onDeinit :: ys → HostCall.onInit ∈ xs) ∧
    (∀ xs ys zs c, tr = xs ++ HostCall.onDeinit :: (ys ++ c :: zs) →
      (c = HostCall.update ∨ c = HostCall.onOsEvent) → HostCall.onInit ∈ ys) := by
  refine ⟨?_, ?_, ?_, ?_⟩
  · cases tr with
    | nil => simp
    | cons c cs =>
      unfold ValidTrace at h
      rcases hstep : lifecycleStep PluginState.unregistered c with _ | s'
      · simp [runLifecycle, hstep] at h
      · have h' : (runLifecycle s' cs).isSome := by
          simpa [runLifecycle, hstep] using h
        have hnot := register_not_mem_of_started cs s'
          (lifecycleStep_ne_unregistered _ _ _ hstep) h'
        have hcount : cs.count HostCall.onRegister = 0 :=
          List.count_eq_zero.mpr hnot
        simp only [List.count_cons, hcount]
        split_ifs <;> decide
  · rintro xs ys rfl
    obtain ⟨s, s', hx, hstep, -⟩ := validTrace_split xs ys HostCall.onInit h
    have hs : s ≠ PluginState.unregistered := by
      cases s <;> simp_all [lifecycleStep]
    exact register_mem_of_left_unregistered xs s hx hs
  · rintro xs ys rfl
    obtain ⟨s, s', hx, hstep, -⟩ := validTrace_split xs ys HostCall.onDeinit h
    have hs : s = PluginState.active := by
      cases s <;> simp_all [lifecycleStep]
    subst hs
    exact init_mem_of_reaches_active xs _ (by decide) hx
  · rintro xs ys zs c rfl hc
    obtain ⟨s, s', hx, hstep, hrest⟩ :=
      validTrace_split xs (ys ++ c :: zs) HostCall.onDeinit h
    have hs' : s' = PluginState.inactive := by
      cases s <;> simp_all [lifecycleStep]
    subst hs'
    rw [runLifecycle_append] at hrest
    rcases hy : runLifecycle PluginState.inactive ys with _ | s2
    · simp [hy] at hrest
    · have h2 : (runLifecycle s2 (c :: zs)).isSome := by simpa [hy] using hrest
      rcases hstep2 : lifecycleStep s2 c with _ | s3
      · simp [runLifecycle, hstep2] at h2
      · have hs2 : s2 = PluginState.active := by
          rcases hc with rfl | rfl <;> cases s2 <;> simp_all [lifecycleStep]
        subst hs2
        exact init_mem_of_reaches_active ys _ (by decide) hy

/-- A concrete valid lifecycle trace with a reactivation, used as witness. -/
def demoTrace : List HostCall :=
  [HostCall.onRegister, HostCall.onInit, HostCall.update, HostCall.update,
   HostCall.onOsEvent, HostCall.onDeinit, HostCall.onInit, HostCall.update]

/-- Witness for C7 on the concrete trace
register/init/update/update/os-event/deinit/init/update. -/
theorem lifecycle_ordering_witness :
    demoTrace.count HostCall.onRegister ≤ 1 ∧
    (∀ xs ys, demoTrace = xs ++ HostCall.onInit :: ys → HostCall.onRegister ∈ xs) ∧
    (∀ xs ys, demoTrace = xs ++ HostCall.onDeinit :: ys → HostCall.onInit ∈ xs) ∧
    (∀ xs ys zs c, demoTrace = xs ++ HostCall.onDeinit :: (ys ++ c :: zs) →
      (c = HostCall.update ∨ c = HostCall.onOsEvent) → HostCall.onInit ∈ ys) :=
  lifecycle_ordering demoTrace (by decide)

/-! ## Claim about the elapsed-time argument of `update` -/

/-- C8: over a host tick sequence with monotone clock readings, each
`PluginContext` passed to `update` carries in `dt` exactly the elapsed time
since the previous call, and that value is non-negative. -/
theorem update_dt_elapsed_nonneg (base : PluginContext) (times : List ℚ)
    (last : ℚ) (hmono : List.Chain (· ≤ ·) last times) :
    (tickContexts base times last).map PluginContext.dt =
      List.zipWith (fun t prev => t - prev) times (last :: times) ∧
    ∀ ctx ∈ tickContexts base times last, 0 ≤ ctx.dt := by
  induction times generalizing last with
  | nil => simp [tickContexts]
  | cons t ts ih =>
    cases hmono with
    | cons hle hchain =>
      obtain ⟨ih1, ih2⟩ := ih t hchain
      constructor
      · simp [tickContexts, ih1]
      · intro ctx hctx
        rcases List.mem_cons.mp hctx with rfl | hmem
        · simpa using sub_nonneg.mpr hle
        · exact ih2 ctx hmem

/-- A concrete context template with all opaque resources zeroed. -/
def demoContext : PluginContext := ⟨0, 0, 0, 0, 0, 0, 0⟩

/-- Witness for C8 on the concrete clock readings 1, 3/2, 3 starting from 0. -/
theorem update_dt_elapsed_nonneg_witness :
    (tickContexts demoContext [1, 3/2, 3] 0).map PluginContext.dt =
      List.zipWith (fun t prev => t - prev) [1, 3/2, 3] (0 :: [1, 3/2, 3]) ∧
    ∀ ctx ∈ tickContexts demoContext [1, 3/2, 3] 0, 0 ≤ ctx.dt :=
  update_dt_elapsed_nonneg demoContext [1, 3/2, 3] 0 (by norm_num)

end Rg3d
